import Mathlib

/-!
# Verification of the Mail-E2E-Exporter core against its specification

This file shallowly embeds the route-test orchestration engine of the
Mail-E2E-Exporter (SMTP send with retry/backoff and uncertainty
classification, mailbox polling with provider folder fallback, per-route
metric bookkeeping, configuration merge and hot reload, API-key check)
and proves the specification's claims about it.

The live program is `src/app/main.py` (the FastAPI application and its
`run_tests_loop`); the sibling modules `smtp_client.py`, `imap_client.py`,
`runner.py` contain a parallel modular variant of the same functions which
is embedded where a claim cites it.
-/

namespace MailE2E

/-! ## YAML-like values and Python-dict semantics

`ExporterConfig.load` (src/app/config.py lines 44-55, identical in
src/app/main.py lines 56-69) manipulates the parsed YAML document as a
Python dict.  We model a Python dict as an association list that keeps
insertion order; `setKey` models `d[k] = v` (update in place if the key
exists, else append), and `mergeDicts a b` models `{**a, **b}`. -/

inductive YVal where
  | str (s : String)
  | int (n : Int)
  | bool (b : Bool)
  | list (l : List YVal)
  | dict (d : List (String × YVal))

abbrev YDict := List (String × YVal)

/-- `k in d` / `d[k]` for a Python dict: first (= unique) binding of `k`. -/
def lookupKey (d : YDict) (k : String) : Option YVal :=
  match d with
  | [] => none
  | (k', v) :: rest => if k' = k then some v else lookupKey rest k

/-- `d[k] = v` on a Python dict: overwrite in place, else append. -/
def setKey (d : YDict) (k : String) (v : YVal) : YDict :=
  match d with
  | [] => [(k, v)]
  | (k', v') :: rest => if k' = k then (k', v) :: rest else (k', v') :: setKey rest k v

/-- `{**a, **b}`: start from `a`, write every binding of `b` over it. -/
def mergeDicts (a b : YDict) : YDict :=
  b.foldl (fun acc kv => setKey acc kv.1 kv.2) a

/-- One iteration of the merge loop body of `ExporterConfig.load`:
`if isinstance(v, dict) and k in data and isinstance(data[k], dict):
data[k] = {**data[k], **v} else: data[k] = v`. -/
def loadStep (data : YDict) (kv : String × YVal) : YDict :=
  match kv.2, lookupKey data kv.1 with
  | .dict ve, some (.dict de) => setKey data kv.1 (.dict (mergeDicts de ve))
  | v, _ => setKey data kv.1 v

/-- The merge performed by `ExporterConfig.load`: start from a copy of the
defaults and fold the loop body over the loaded document's bindings. -/
def loadMerge (defaults loaded : YDict) : YDict :=
  loaded.foldl loadStep defaults

/-- The `DEFAULTS["exporter"]` sub-dict of src/app/config.py (lines 11-26). -/
def exporterDefaults : YDict :=
  [("listen_addr", .str "0.0.0.0"),
   ("listen_port", .int 9782),
   ("check_interval_seconds", .int 300),
   ("receive_poll_seconds", .int 5),
   ("receive_timeout_seconds", .int 120),
   ("delete_testmail_after_verify", .bool true),
   ("subject_prefix", .str "[MAIL-E2E]"),
   ("metrics_prefix", .str "mail_"),
   ("smtp_timeout_seconds", .int 60),
   ("uncertain_probe_on_timeout", .bool true),
   ("uncertain_probe_timeout_seconds", .int 12),
   ("uncertain_probe_poll_seconds", .int 4),
   ("min_smtp_interval_seconds", .int 0),
   ("send_jitter_max_seconds", .int 0)]

/-- The `DEFAULTS` document of src/app/config.py (lines 10-29). -/
def DEFAULTS : YDict :=
  [("exporter", .dict exporterDefaults),
   ("accounts", .dict []),
   ("tests", .list [])]

/-- An example loaded document exercising both merge behaviours: a known
dict-valued key (`exporter`) and an unknown top-level key (`custom`). -/
def loadedExample : YDict :=
  [("exporter", .dict [("listen_port", .int 1234), ("extra_knob", .str "on")]),
   ("custom", .str "x")]

/-- Keys of a dict, for stating uniqueness hypotheses. -/
def keysOf (d : YDict) : List String := d.map Prod.fst

/-- The value `loadStep` stores for a document binding `v` of key `k`,
given the default binding of `k` (if any): the shallow merge when both
sides are dicts, the document value otherwise. -/
def mergeVal : Option YVal → YVal → YVal
  | some (.dict de), .dict ve => .dict (mergeDicts de ve)
  | _, v => v

/-! ## Config hot reload

`reload_config_if_changed` (src/app/config.py lines 66-83, identical in
src/app/main.py lines 79-97 as `_reload_config_if_changed`).  The state is
the live `config` object together with the recorded `_config_mtime_ns`.
`statRes = none` models `os.stat` raising `FileNotFoundError`; `loadRes =
none` models `ExporterConfig.load` raising. -/

structure ReloadState (C : Type) where
  config : C
  mtimeNs : Option Int
  deriving DecidableEq

def reloadConfigIfChanged {C : Type} (st : ReloadState C) (force : Bool)
    (statRes : Option Int) (loadRes : Option C) : ReloadState C × Bool :=
  let scan : Option Int × Bool :=
    match statRes with
    | some m => (some m, force || st.mtimeNs.isNone || decide (some m ≠ st.mtimeNs))
    | none => (none, force || decide (st.mtimeNs ≠ none))
  if scan.2 then
    match loadRes with
    | some c => (⟨c, scan.1⟩, true)
    | none => (st, false)
  else
    (st, false)

/-! ## API key check

`require_api_key` (src/app/auth.py lines 6-11, identical in
src/app/main.py lines 150-155).  `apiKey` is the `API_KEY` environment
value (`none` = unset), `headerKey` the `x-api-key` header, `queryKey` the
`api_key` query parameter.  The result is `true` iff the function raises
HTTP 401. -/

/-- Python truthiness of an optional string: `None` and `""` are falsy. -/
def pyTruthy : Option String → Bool
  | none => false
  | some s => !(s == "")

/-- Python `a or b` on optional strings. -/
def pyOrStr (a b : Option String) : Option String :=
  if pyTruthy a then a else b

def requireApiKey (apiKey headerKey queryKey : Option String) : Bool :=
  match apiKey with
  | none => false
  | some s =>
    if s = "" then false
    else decide (pyOrStr headerKey queryKey ≠ some s)

/-! ## SMTP send, modular variant

`smtp_send` in src/app/smtp_client.py (lines 36-113).  The network is
abstracted as a function from the attempt number (1-based, the value of
`attempts` inside the loop) to what that attempt's `aiosmtplib.send`
call does: return, raise an `SMTPResponseException` with a reply code,
raise a timeout/disconnect error, or raise anything else.  Jitter
(`random.uniform(0, 1.5)`) is abstracted as a function from the attempt
number to the drawn value. -/

inductive AttemptOutcome where
  | ok
  | response (code : Nat)
  | timeoutDisconnect
  | otherError
  deriving DecidableEq

inductive SendResult where
  | okResult
  | raisedResponse (code : Nat)
  | raisedUncertain
  | raisedOther
  | fellThrough
  deriving DecidableEq

structure SendTrace where
  result : SendResult
  okGauge : Option Nat
  uncertainGauge : Option Nat
  rateLimited : List Nat
  backoffs : List ℚ
  attemptsMade : Nat
  deriving DecidableEq

/-- `max_attempts` of `smtp_client.smtp_send` (line 69). -/
def maxAttempts : Nat := 3

/-- Backoff on a timeout/disconnect: `min(5, max(2, timeout_s // 20))`
(smtp_client.py line 99; identical formula in main.py line 298). -/
def timeoutBackoff (timeoutS : Nat) : Nat :=
  min 5 (max 2 (timeoutS / 20))

/-- Backoff on a 4xx reply: `min(30, 3 * (2 ** (attempts - 1))) +
random.uniform(0, 1.5)` (smtp_client.py line 91); `j` is the jitter draw. -/
def tempBackoff (attempts : Nat) (j : ℚ) : ℚ :=
  min 30 (3 * 2 ^ (attempts - 1)) + j

/-- The retry loop of `smtp_client.smtp_send`.  `fuel` is
`max_attempts - attempts`, the number of loop-condition checks left;
`attempts0` the current value of `attempts`; `rl` and `bs` accumulate the
4xx-counter increments and the sleeps performed so far. -/
def smtpSendGo (server : Nat → AttemptOutcome) (jitter : Nat → ℚ) (timeoutS : Nat) :
    Nat → Nat → List Nat → List ℚ → SendTrace
  | 0, attempts0, rl, bs =>
    -- loop exits: `g_send_ok.set(0); return {"ok": False}` (lines 112-113)
    ⟨.fellThrough, some 0, none, rl, bs, attempts0⟩
  | fuel + 1, attempts0, rl, bs =>
    let attempts := attempts0 + 1
    match server attempts with
    | .ok => ⟨.okResult, some 1, some 0, rl, bs, attempts⟩
    | .response code =>
      if 400 ≤ code ∧ code < 500 then
        let rl' := rl ++ [code]
        if attempts < maxAttempts then
          smtpSendGo server jitter timeoutS fuel attempts rl'
            (bs ++ [tempBackoff attempts (jitter attempts)])
        else ⟨.raisedResponse code, some 0, none, rl', bs, attempts⟩
      else ⟨.raisedResponse code, some 0, none, rl, bs, attempts⟩
    | .timeoutDisconnect =>
      if attempts < maxAttempts then
        smtpSendGo server jitter timeoutS fuel attempts rl
          (bs ++ [(timeoutBackoff timeoutS : ℚ)])
      else ⟨.raisedUncertain, some 0, some 1, rl, bs, attempts⟩
    | .otherError => ⟨.raisedOther, some 0, some 0, rl, bs, attempts⟩

def smtpSend (server : Nat → AttemptOutcome) (jitter : Nat → ℚ) (timeoutS : Nat) : SendTrace :=
  smtpSendGo server jitter timeoutS maxAttempts 0 [] []

/-! ## SMTP send, live variant

`_smtp_send` in src/app/main.py (lines 219-315).  Only timeout-class
errors are retried (`max_attempts = 2`, line 284); every other exception
propagates immediately; after the budget a timeout raises
`SMTPUncertainError`.  `_smtp_send` itself touches no gauge — the caller
`run_tests_loop` does. -/

inductive MainAttempt where
  | ok
  | timeoutDisconnect
  | otherError
  deriving DecidableEq

inductive MainSendResult where
  | okResult
  | raisedUncertain
  | raisedOther
  | fellThrough
  deriving DecidableEq

structure MainSendTrace where
  result : MainSendResult
  backoffs : List ℚ
  attemptsMade : Nat
  deriving DecidableEq

/-- `max_attempts` of `main._smtp_send` (line 284). -/
def mainMaxAttempts : Nat := 2

def mainSmtpSendGo (server : Nat → MainAttempt) (timeoutS : Nat) :
    Nat → Nat → List ℚ → MainSendTrace
  | 0, attempts0, bs => ⟨.fellThrough, bs, attempts0⟩
  | fuel + 1, attempts0, bs =>
    let attempts := attempts0 + 1
    match server attempts with
    | .ok => ⟨.okResult, bs, attempts⟩
    | .timeoutDisconnect =>
      if attempts < mainMaxAttempts then
        mainSmtpSendGo server timeoutS fuel attempts
          (bs ++ [(timeoutBackoff timeoutS : ℚ)])
      else ⟨.raisedUncertain, bs, attempts⟩
    | .otherError => ⟨.raisedOther, bs, attempts⟩

def mainSmtpSend (server : Nat → MainAttempt) (timeoutS : Nat) : MainSendTrace :=
  mainSmtpSendGo server timeoutS mainMaxAttempts 0 []

/-! ## Mailbox poller folder list

`_imap_wait_receive` in src/app/main.py, lines 346-365: start from the
account's primary folder, append each configured extra folder that is
non-empty and not already present, then, when the host looks like Gmail,
append each of a fixed list of Gmail candidates not already present. -/

/-- `extra_folders` may be a single string or a list (main.py lines 349-350). -/
inductive ExtraFoldersCfg where
  | one (s : String)
  | many (l : List String)

def normalizeExtras : ExtraFoldersCfg → List String
  | .one s => [s]
  | .many l => l

/-- `is_gmail = (host or "").lower().endswith("gmail.com") or "gmail" in
(host or "").lower()` (main.py line 355). -/
def isGmailHost (host : String) : Bool :=
  host.toLower.endsWith "gmail.com" ||
    decide (List.IsInfix "gmail".toList host.toLower.toList)

/-- `gmail_candidates` (main.py lines 357-362). -/
def gmailCandidates : List String :=
  ["[Gmail]/All Mail", "[Google Mail]/All Mail",
   "[Gmail]/Alle Nachrichten", "[Google Mail]/Alle Nachrichten",
   "[Gmail]/Spam", "[Google Mail]/Spam",
   "[Gmail]/Important", "[Google Mail]/Wichtig"]

/-- The folder list built once per `_imap_wait_receive` call
(main.py lines 347-365). -/
def buildFolderList (baseFolder : String) (extraCfg : ExtraFoldersCfg)
    (host : String) : List String :=
  let l1 := (normalizeExtras extraCfg).foldl
    (fun acc f => if f ≠ "" ∧ f ∉ acc then acc ++ [f] else acc) [baseFolder]
  if isGmailHost host then
    gmailCandidates.foldl (fun acc f => if f ∉ acc then acc ++ [f] else acc) l1
  else l1

/-! ## Metric writes of the modular mailbox poller

`imap_wait_receive` in src/app/imap_client.py writes the receive gauges
with the label set `route=route_name, from="?", to=dst_key`
(lines 27, 66-69, 79).  We record every labelled gauge write it makes. -/

structure MetricWrite where
  metric : String
  route : String
  fromKey : String
  toKey : String
  value : ℚ
  deriving DecidableEq

inductive PollOutcome where
  | found (count : Nat)
  | timedOut
  deriving DecidableEq

/-- The sequence of labelled gauge writes performed by
`imap_client.imap_wait_receive` for a route named `route` polling the
destination account `dstKey`; `tRecv` and `rt` stand for the wall-clock
values written to the timestamp and roundtrip gauges. -/
def imapWaitReceiveWrites (route dstKey : String) (out : PollOutcome)
    (tRecv rt : ℚ) : List MetricWrite :=
  ⟨"receive_attempted", route, "?", dstKey, 1⟩ ::
  match out with
  | .found _ =>
    [⟨"receive_success", route, "?", dstKey, 1⟩,
     ⟨"last_receive_timestamp", route, "?", dstKey, tRecv⟩,
     ⟨"roundtrip_seconds", route, "?", dstKey, rt⟩]
  | .timedOut =>
    [⟨"receive_success", route, "?", dstKey, 0⟩]

/-! ## Per-route cycle body of the live scheduler

The body of the `for t in tests:` loop of `run_tests_loop` in
src/app/main.py (lines 628-731).  We record the ordered sequence of
metric writes and outbound calls the body performs, as a function of the
exporter configuration and of the already-classified outcomes of the send
(`_smtp_send` returning, raising `SMTPUncertainError`, or raising any
other exception) and of the mailbox poll (`_imap_wait_receive` returning
`True`/`False` or raising).  Opaque runtime values — the wall-clock
timestamps, the md5-derived error hash, the effective SMTP timeout —
enter as parameters. -/

inductive Step where
  | send
  | receive
  | config
  deriving DecidableEq

inductive REv where
  | testInfo
  | errInc (step : Step) (amount : Nat)
  | lastError (v : ℚ)
  | sendOk (v : Nat)
  | recvOk (v : Nat)
  | roundtrip (v : ℚ)
  | recvAttempted (v : Nat)
  | recvSkipped (v : Nat)
  | sendUncertain (v : Nat)
  | lastSend (t : ℚ)
  | lastRecv (t : ℚ)
  | cfgSmtpTimeout (v : Nat)
  | smtpSendCall
  | pollerCall (timeoutS pollS : Nat)
  deriving DecidableEq

inductive SendOutcome where
  | ok
  | uncertain
  | hardFail
  deriving DecidableEq

inductive RecvOutcome where
  | found
  | notFound
  | raised
  deriving DecidableEq

/-- The effective exporter settings read by the loop body (each
`exporter_cfg.get(..., DEFAULTS[...])` result). -/
structure ExporterCfg where
  uncertainProbeOnTimeout : Bool
  uncertainProbeTimeoutSeconds : Nat
  uncertainProbePollSeconds : Nat
  receiveTimeoutSeconds : Nat
  receivePollSeconds : Nat
  deriving DecidableEq

/-- Ordered events of one iteration of the route loop
(src/app/main.py lines 628-731).  `srcPresent`/`dstPresent`: truthiness of
`t.get("from")`/`t.get("to")` (line 640); `effTimeoutKnown`: whether the
`_get_account`/timeout lookup at lines 662-663 succeeded; `send`: outcome
of the `_smtp_send` call; `recv`: outcome of the `_imap_wait_receive`
call that the body makes, if any. -/
def routeBody (cfg : ExporterCfg) (srcPresent dstPresent : Bool)
    (effTimeoutKnown : Bool) (effTimeout : Nat)
    (send : SendOutcome) (recv : RecvOutcome)
    (startT endT hv : ℚ) : List REv :=
  [.testInfo, .errInc .send 0, .errInc .receive 0, .lastError 0] ++
  if ¬(srcPresent ∧ dstPresent) then [.errInc .config 1]
  else
    [.recvOk 0, .roundtrip 0, .recvAttempted 0, .recvSkipped 0, .sendUncertain 0,
     .lastSend startT] ++
    (if effTimeoutKnown then [.cfgSmtpTimeout effTimeout] else []) ++
    [.smtpSendCall] ++
    match send with
    | .ok =>
      [.sendOk 1, .recvAttempted 1, .recvSkipped 0,
       .pollerCall cfg.receiveTimeoutSeconds cfg.receivePollSeconds] ++
      match recv with
      | .found => [.recvOk 1, .lastRecv endT, .roundtrip (endT - startT)]
      | .notFound => [.recvOk 0, .errInc .receive 1, .roundtrip 0]
      | .raised => [.errInc .receive 1, .lastError hv]
    | .uncertain =>
      [.sendOk 0, .sendUncertain 1, .errInc .send 1, .lastError hv] ++
      if cfg.uncertainProbeOnTimeout then
        [.recvAttempted 1,
         .pollerCall cfg.uncertainProbeTimeoutSeconds cfg.uncertainProbePollSeconds] ++
        match recv with
        | .found => [.lastRecv endT, .recvOk 1]
        | .notFound => [.recvOk 0, .recvSkipped 1]
        | .raised => [.recvSkipped 1]
      else [.recvSkipped 1]
    | .hardFail => [.sendOk 0, .errInc .send 1, .lastError hv, .recvSkipped 1]

/-- The per-route metric series, as last-written values (`none` = the
series has never been written for this route). -/
structure RouteGauges where
  testInfoG : Option ℚ
  sendOkG : Option ℚ
  recvOkG : Option ℚ
  roundtripG : Option ℚ
  recvAttemptedG : Option ℚ
  recvSkippedG : Option ℚ
  sendUncertainG : Option ℚ
  lastErrorG : Option ℚ
  lastSendG : Option ℚ
  lastRecvG : Option ℚ
  errSend : Nat
  errReceive : Nat
  errConfig : Nat
  deriving DecidableEq

def applyEv (g : RouteGauges) : REv → RouteGauges
  | .testInfo => { g with testInfoG := some 1 }
  | .errInc .send n => { g with errSend := g.errSend + n }
  | .errInc .receive n => { g with errReceive := g.errReceive + n }
  | .errInc .config n => { g with errConfig := g.errConfig + n }
  | .lastError v => { g with lastErrorG := some v }
  | .sendOk v => { g with sendOkG := some (v : ℚ) }
  | .recvOk v => { g with recvOkG := some (v : ℚ) }
  | .roundtrip v => { g with roundtripG := some v }
  | .recvAttempted v => { g with recvAttemptedG := some (v : ℚ) }
  | .recvSkipped v => { g with recvSkippedG := some (v : ℚ) }
  | .sendUncertain v => { g with sendUncertainG := some (v : ℚ) }
  | .lastSend t => { g with lastSendG := some t }
  | .lastRecv t => { g with lastRecvG := some t }
  | .cfgSmtpTimeout _ => g
  | .smtpSendCall => g
  | .pollerCall _ _ => g

def gaugesAfter (init : RouteGauges) (evs : List REv) : RouteGauges :=
  evs.foldl applyEv init

/-! ## Theorems -/

/-- **C9.** If reloading the configuration file fails
(`ExporterConfig.load` raises), `reload_config_if_changed` leaves the
previously loaded config object and the recorded mtime unchanged and
returns `False`; it returns `True` only when a new snapshot was
successfully installed (and then the installed config is exactly the
loaded one). -/
theorem reload_keeps_last_good_snapshot (C : Type) (st : ReloadState C)
    (force : Bool) (statRes : Option Int) :
    reloadConfigIfChanged st force statRes none = (st, false) ∧
    (∀ loadRes : Option C, (reloadConfigIfChanged st force statRes loadRes).2 = true →
      ∃ c, loadRes = some c ∧
        (reloadConfigIfChanged st force statRes loadRes).1.config = c) := by
  constructor
  · unfold reloadConfigIfChanged
    cases statRes <;> dsimp only <;> split <;> rfl
  · intro loadRes h
    cases loadRes with
    | none =>
      exfalso
      unfold reloadConfigIfChanged at h
      cases statRes <;> dsimp only at h <;> split at h <;> simp_all
    | some c =>
      refine ⟨c, rfl, ?_⟩
      unfold reloadConfigIfChanged at h ⊢
      cases statRes <;> dsimp only at h ⊢ <;> split at h <;> simp_all

/-- Witness for `reload_keeps_last_good_snapshot` at a concrete state:
a failed load keeps the snapshot `41` and returns `false`; a successful
forced load installs exactly the loaded snapshot `7`. -/
theorem reload_keeps_last_good_snapshot_witness :
    reloadConfigIfChanged (⟨41, some 3⟩ : ReloadState Nat) false (some 5) none =
      (⟨41, some 3⟩, false) ∧
    ∃ c, (some 7 : Option Nat) = some c ∧
      (reloadConfigIfChanged (⟨41, some 3⟩ : ReloadState Nat) true (some 5) (some 7)).1.config = c :=
  ⟨(reload_keeps_last_good_snapshot Nat ⟨41, some 3⟩ false (some 5)).1,
   (reload_keeps_last_good_snapshot Nat ⟨41, some 3⟩ true (some 5)).2 (some 7) (by decide)⟩

/-- **C10.** `require_api_key` raises HTTP 401 if and only if the
`API_KEY` environment value is non-empty and the request's `x-api-key`
header (or, when the header is absent or empty, the `api_key` query
parameter) differs from it; when `API_KEY` is unset or empty every
request passes, i.e. API-key authentication is silently disabled. -/
theorem require_api_key_spec (a h q : Option String) :
    (requireApiKey a h q = true ↔
      ∃ s, a = some s ∧ s ≠ "" ∧ pyOrStr h q ≠ some s) ∧
    ((a = none ∨ a = some "") → requireApiKey a h q = false) := by
  constructor
  · cases a with
    | none => simp [requireApiKey]
    | some s =>
      by_cases hs : s = "" <;> simp [requireApiKey, hs]
  · rintro (rfl | rfl) <;> simp [requireApiKey]

/-- Witness for `require_api_key_spec`: with `API_KEY` unset, a request
carrying an arbitrary header key passes the check. -/
theorem require_api_key_spec_witness :
    requireApiKey none (some "whatever") none = false :=
  (require_api_key_spec none (some "whatever") none).2 (Or.inl rfl)

/-- The timeout/disconnect backoff is always between 2 and 5 seconds. -/
theorem timeoutBackoff_bounds (t : Nat) :
    2 ≤ timeoutBackoff t ∧ timeoutBackoff t ≤ 5 := by
  unfold timeoutBackoff
  omega

/-- **C1.** For every send in which each attempt ends in an SMTP timeout
or abrupt server disconnect, the send is retried a bounded number of
times with a short backoff (modular `smtp_send`: 3 attempts, each backoff
between 2 and 5 seconds; live `_smtp_send`: 2 attempts, same backoff) and
after the attempt budget the outcome is `SMTPUncertainError` — not a
plain failure — with the send-uncertain gauge set to 1 (by `smtp_send`
itself in the modular variant, and by `run_tests_loop`'s
`except SMTPUncertainError` handler in the live variant). -/
theorem all_timeouts_reported_uncertain
    (server : Nat → AttemptOutcome) (jitter : Nat → ℚ) (t : Nat)
    (hs : ∀ i, server i = .timeoutDisconnect)
    (mserver : Nat → MainAttempt)
    (hm : ∀ i, mserver i = .timeoutDisconnect) :
    (smtpSend server jitter t).result = .raisedUncertain ∧
    (smtpSend server jitter t).uncertainGauge = some 1 ∧
    (smtpSend server jitter t).okGauge = some 0 ∧
    (smtpSend server jitter t).attemptsMade = maxAttempts ∧
    (smtpSend server jitter t).backoffs =
      [(timeoutBackoff t : ℚ), (timeoutBackoff t : ℚ)] ∧
    (2 ≤ timeoutBackoff t ∧ timeoutBackoff t ≤ 5) ∧
    (mainSmtpSend mserver t).result = .raisedUncertain ∧
    (mainSmtpSend mserver t).attemptsMade = mainMaxAttempts ∧
    (mainSmtpSend mserver t).backoffs = [(timeoutBackoff t : ℚ)] ∧
    (∀ (cfg : ExporterCfg) (ek : Bool) (et : Nat) (recv : RecvOutcome)
       (sT eT hv : ℚ) (init : RouteGauges),
      (gaugesAfter init
        (routeBody cfg true true ek et .uncertain recv sT eT hv)).sendUncertainG
        = some 1) := by
  have hroute : ∀ (cfg : ExporterCfg) (ek : Bool) (et : Nat) (recv : RecvOutcome)
      (sT eT hv : ℚ) (init : RouteGauges),
      (gaugesAfter init
        (routeBody cfg true true ek et .uncertain recv sT eT hv)).sendUncertainG
        = some 1 := by
    intro cfg ek et recv sT eT hv init
    cases recv <;> cases ek <;>
      by_cases hp : cfg.uncertainProbeOnTimeout <;>
      simp [routeBody, gaugesAfter, applyEv, hp]
  refine ⟨?_, ?_, ?_, ?_, ?_, timeoutBackoff_bounds t, ?_, ?_, ?_, hroute⟩ <;>
    first
    | simp [smtpSend, smtpSendGo, maxAttempts, hs]
    | simp [mainSmtpSend, mainSmtpSendGo, mainMaxAttempts, hm]

/-- Witness for `all_timeouts_reported_uncertain` at a server that times
out on every attempt with a 60-second configured timeout. -/
theorem all_timeouts_reported_uncertain_witness :
    (smtpSend (fun _ => .timeoutDisconnect) (fun _ => 0) 60).result =
      .raisedUncertain ∧
    (smtpSend (fun _ => .timeoutDisconnect) (fun _ => 0) 60).uncertainGauge =
      some 1 ∧
    (smtpSend (fun _ => .timeoutDisconnect) (fun _ => 0) 60).okGauge = some 0 ∧
    (smtpSend (fun _ => .timeoutDisconnect) (fun _ => 0) 60).attemptsMade =
      maxAttempts ∧
    (smtpSend (fun _ => .timeoutDisconnect) (fun _ => 0) 60).backoffs =
      [(timeoutBackoff 60 : ℚ), (timeoutBackoff 60 : ℚ)] ∧
    (2 ≤ timeoutBackoff 60 ∧ timeoutBackoff 60 ≤ 5) ∧
    (mainSmtpSend (fun _ => .timeoutDisconnect) 60).result = .raisedUncertain ∧
    (mainSmtpSend (fun _ => .timeoutDisconnect) 60).attemptsMade =
      mainMaxAttempts ∧
    (mainSmtpSend (fun _ => .timeoutDisconnect) 60).backoffs =
      [(timeoutBackoff 60 : ℚ)] ∧
    (∀ (cfg : ExporterCfg) (ek : Bool) (et : Nat) (recv : RecvOutcome)
       (sT eT hv : ℚ) (init : RouteGauges),
      (gaugesAfter init
        (routeBody cfg true true ek et .uncertain recv sT eT hv)).sendUncertainG
        = some 1) :=
  all_timeouts_reported_uncertain (fun _ => .timeoutDisconnect) (fun _ => 0) 60
    (fun _ => rfl) (fun _ => .timeoutDisconnect) (fun _ => rfl)

/-- **C2.** For every send in which each attempt receives a 4xx server
reply, the modular `smtp_send` makes at most 3 total attempts (exactly
`max_attempts = 3`, i.e. 2 retries), separated by exponential backoff
(base `min(30, 3·2^(attempts-1))`, so 3 then 6, capped at the ceiling 30)
plus a random jitter in `[0, 1.5]`, and when the attempt budget is
exhausted it raises the 4xx response error — never `SMTPUncertainError` —
after which the route-level handler leaves the metrics at send-success 0
and send-uncertain 0. -/
theorem persistent_4xx_hard_failure
    (server : Nat → AttemptOutcome) (jitter : Nat → ℚ) (t : Nat) (c : Nat)
    (hclo : 400 ≤ c) (hchi : c < 500)
    (hs : ∀ i, server i = .response c)
    (hj : ∀ i, 0 ≤ jitter i ∧ jitter i ≤ 3 / 2) :
    (smtpSend server jitter t).attemptsMade = maxAttempts ∧
    maxAttempts = 3 ∧
    (smtpSend server jitter t).result = .raisedResponse c ∧
    (smtpSend server jitter t).result ≠ .raisedUncertain ∧
    (smtpSend server jitter t).okGauge = some 0 ∧
    (smtpSend server jitter t).rateLimited = [c, c, c] ∧
    (smtpSend server jitter t).backoffs = [3 + jitter 1, 6 + jitter 2] ∧
    (∀ b ∈ (smtpSend server jitter t).backoffs, 3 ≤ b ∧ b ≤ 30 + 3 / 2) ∧
    (∀ (cfg : ExporterCfg) (ek : Bool) (et : Nat) (recv : RecvOutcome)
       (sT eT hv : ℚ) (init : RouteGauges),
      (gaugesAfter init
        (routeBody cfg true true ek et .hardFail recv sT eT hv)).sendOkG = some 0 ∧
      (gaugesAfter init
        (routeBody cfg true true ek et .hardFail recv sT eT hv)).sendUncertainG
        = some 0) := by
  have key : smtpSend server jitter t =
      ⟨.raisedResponse c, some 0, none, [c, c, c],
       [tempBackoff 1 (jitter 1), tempBackoff 2 (jitter 2)], 3⟩ := by
    simp [smtpSend, smtpSendGo, maxAttempts, hs, hclo, hchi]
  have hb1 : tempBackoff 1 (jitter 1) = 3 + jitter 1 := by
    unfold tempBackoff; norm_num
  have hb2 : tempBackoff 2 (jitter 2) = 6 + jitter 2 := by
    unfold tempBackoff; norm_num
  refine ⟨?_, rfl, ?_, ?_, ?_, ?_, ?_, ?_, ?_⟩
  · rw [key]; rfl
  · rw [key]
  · rw [key]; simp
  · rw [key]
  · rw [key]
  · rw [key]; dsimp only [SendTrace.backoffs]; rw [hb1, hb2]
  · rw [key]
    intro b hb
    simp only [hb1, hb2, List.mem_cons, List.mem_singleton, List.not_mem_nil,
      or_false] at hb
    rcases hb with rfl | rfl
    · constructor <;> linarith [(hj 1).1, (hj 1).2]
    · constructor <;> linarith [(hj 2).1, (hj 2).2]
  · intro cfg ek et recv sT eT hv init
    cases recv <;> cases ek <;>
      constructor <;> simp [routeBody, gaugesAfter, applyEv]

/-- Witness for `persistent_4xx_hard_failure` at a server that answers
452 on every attempt with zero jitter draws. -/
theorem persistent_4xx_hard_failure_witness :
    (smtpSend (fun _ => .response 452) (fun _ => 0) 60).attemptsMade =
      maxAttempts ∧
    maxAttempts = 3 ∧
    (smtpSend (fun _ => .response 452) (fun _ => 0) 60).result =
      .raisedResponse 452 ∧
    (smtpSend (fun _ => .response 452) (fun _ => 0) 60).result ≠
      .raisedUncertain ∧
    (smtpSend (fun _ => .response 452) (fun _ => 0) 60).okGauge = some 0 ∧
    (smtpSend (fun _ => .response 452) (fun _ => 0) 60).rateLimited =
      [452, 452, 452] ∧
    (smtpSend (fun _ => .response 452) (fun _ => 0) 60).backoffs =
      [3 + (0 : ℚ), 6 + (0 : ℚ)] ∧
    (∀ b ∈ (smtpSend (fun _ => .response 452) (fun _ => 0) 60).backoffs,
      3 ≤ b ∧ b ≤ 30 + 3 / 2) ∧
    (∀ (cfg : ExporterCfg) (ek : Bool) (et : Nat) (recv : RecvOutcome)
       (sT eT hv : ℚ) (init : RouteGauges),
      (gaugesAfter init
        (routeBody cfg true true ek et .hardFail recv sT eT hv)).sendOkG = some 0 ∧
      (gaugesAfter init
        (routeBody cfg true true ek et .hardFail recv sT eT hv)).sendUncertainG
        = some 0) :=
  persistent_4xx_hard_failure (fun _ => .response 452) (fun _ => 0) 60 452
    (by decide) (by decide) (fun _ => rfl) (fun _ => by norm_num)

/-- **C3.** For every route whose send outcome is uncertain and for which
probing is enabled, `run_tests_loop` runs the secondary mailbox probe
with the probe-specific timeout and poll settings
(`uncertain_probe_timeout_seconds` / `uncertain_probe_poll_seconds`); if
the probe finds the token that cycle's metrics show send-uncertain = 1
and receive-success = 1, and if it finds nothing they show
receive-success = 0 and receive-skipped = 1. -/
theorem uncertain_probe_uses_probe_settings
    (cfg : ExporterCfg) (hp : cfg.uncertainProbeOnTimeout = true)
    (ek : Bool) (et : Nat) (recv : RecvOutcome) (sT eT hv : ℚ)
    (init : RouteGauges) :
    REv.pollerCall cfg.uncertainProbeTimeoutSeconds cfg.uncertainProbePollSeconds
      ∈ routeBody cfg true true ek et .uncertain recv sT eT hv ∧
    (recv = .found →
      (gaugesAfter init
        (routeBody cfg true true ek et .uncertain recv sT eT hv)).sendUncertainG
        = some 1 ∧
      (gaugesAfter init
        (routeBody cfg true true ek et .uncertain recv sT eT hv)).recvOkG
        = some 1) ∧
    (recv = .notFound →
      (gaugesAfter init
        (routeBody cfg true true ek et .uncertain recv sT eT hv)).recvOkG
        = some 0 ∧
      (gaugesAfter init
        (routeBody cfg true true ek et .uncertain recv sT eT hv)).recvSkippedG
        = some 1) := by
  cases recv <;> cases ek <;>
    simp [routeBody, hp, gaugesAfter, applyEv]

/-- Witness for `uncertain_probe_uses_probe_settings` at the default
exporter configuration, with a probe that finds the token. -/
theorem uncertain_probe_uses_probe_settings_witness :
    REv.pollerCall 12 4 ∈
      routeBody ⟨true, 12, 4, 120, 5⟩ true true true 60 .uncertain .found 0 7 9 ∧
    (gaugesAfter ⟨none, none, none, none, none, none, none, none, none, none, 0, 0, 0⟩
      (routeBody ⟨true, 12, 4, 120, 5⟩ true true true 60 .uncertain .found 0 7 9)).sendUncertainG
      = some 1 ∧
    (gaugesAfter ⟨none, none, none, none, none, none, none, none, none, none, 0, 0, 0⟩
      (routeBody ⟨true, 12, 4, 120, 5⟩ true true true 60 .uncertain .found 0 7 9)).recvOkG
      = some 1 := by
  have h := uncertain_probe_uses_probe_settings ⟨true, 12, 4, 120, 5⟩ rfl
    true 60 .found 0 7 9 ⟨none, none, none, none, none, none, none, none, none, none, 0, 0, 0⟩
  exact ⟨h.1, (h.2.1 rfl).1, (h.2.1 rfl).2⟩

/-- **C4.** For every route whose send outcome is a non-ambiguous hard
failure, the receive phase is never entered — `run_tests_loop` performs
no mailbox-poller call for that route in that cycle — and the
receive-skipped gauge is set to 1 (receive-attempted stays at its reset
value 0). -/
theorem hard_failure_skips_receive
    (cfg : ExporterCfg) (ek : Bool) (et : Nat) (recv : RecvOutcome)
    (sT eT hv : ℚ) (init : RouteGauges) :
    (∀ tS pS : Nat,
      REv.pollerCall tS pS ∉ routeBody cfg true true ek et .hardFail recv sT eT hv) ∧
    (gaugesAfter init
      (routeBody cfg true true ek et .hardFail recv sT eT hv)).recvAttemptedG
      = some 0 ∧
    (gaugesAfter init
      (routeBody cfg true true ek et .hardFail recv sT eT hv)).recvSkippedG
      = some 1 := by
  cases ek <;>
    exact ⟨by intro tS pS; simp [routeBody],
      by simp [routeBody, gaugesAfter, applyEv],
      by simp [routeBody, gaugesAfter, applyEv]⟩

/-- Witness for `hard_failure_skips_receive` at the default configuration
and a previously fully-successful gauge state. -/
theorem hard_failure_skips_receive_witness :
    REv.pollerCall 120 5 ∉
      routeBody ⟨true, 12, 4, 120, 5⟩ true true true 60 .hardFail .notFound
        0 7 9 ∧
    (gaugesAfter
      ⟨some 1, some 1, some 1, some 1, some 1, some 1, some 1, some 1, some 1,
       some 1, 0, 0, 0⟩
      (routeBody ⟨true, 12, 4, 120, 5⟩ true true true 60 .hardFail .notFound
        0 7 9)).recvAttemptedG = some 0 ∧
    (gaugesAfter
      ⟨some 1, some 1, some 1, some 1, some 1, some 1, some 1, some 1, some 1,
       some 1, 0, 0, 0⟩
      (routeBody ⟨true, 12, 4, 120, 5⟩ true true true 60 .hardFail .notFound
        0 7 9)).recvSkippedG = some 1 :=
  ⟨(hard_failure_skips_receive ⟨true, 12, 4, 120, 5⟩ true 60 .notFound 0 7 9
      ⟨some 1, some 1, some 1, some 1, some 1, some 1, some 1, some 1, some 1,
       some 1, 0, 0, 0⟩).1 120 5,
   (hard_failure_skips_receive ⟨true, 12, 4, 120, 5⟩ true 60 .notFound 0 7 9
      ⟨some 1, some 1, some 1, some 1, some 1, some 1, some 1, some 1, some 1,
       some 1, 0, 0, 0⟩).2.1,
   (hard_failure_skips_receive ⟨true, 12, 4, 120, 5⟩ true 60 .notFound 0 7 9
      ⟨some 1, some 1, some 1, some 1, some 1, some 1, some 1, some 1, some 1,
       some 1, 0, 0, 0⟩).2.2⟩

/-- **C5.** At the start of every per-route iteration of
`run_tests_loop`, before the send is attempted, the route's per-cycle
gauges (receive success, roundtrip, receive attempted, receive skipped,
send uncertain) are reset to 0 — the five reset writes are among the
first nine events and the SMTP send call is not — so a route that errors
before the receive phase ends the cycle with those gauges determined by
this cycle alone, never retaining a previous cycle's success values. -/
theorem gauges_reset_before_send
    (cfg : ExporterCfg) (ek : Bool) (et : Nat) (send : SendOutcome)
    (recv : RecvOutcome) (sT eT hv : ℚ) (init : RouteGauges) :
    (routeBody cfg true true ek et send recv sT eT hv).take 9 =
      [.testInfo, .errInc .send 0, .errInc .receive 0, .lastError 0,
       .recvOk 0, .roundtrip 0, .recvAttempted 0, .recvSkipped 0,
       .sendUncertain 0] ∧
    REv.smtpSendCall ∉ (routeBody cfg true true ek et send recv sT eT hv).take 9 ∧
    REv.smtpSendCall ∈ routeBody cfg true true ek et send recv sT eT hv ∧
    (send = .hardFail →
      (gaugesAfter init
        (routeBody cfg true true ek et send recv sT eT hv)).recvOkG = some 0 ∧
      (gaugesAfter init
        (routeBody cfg true true ek et send recv sT eT hv)).roundtripG = some 0 ∧
      (gaugesAfter init
        (routeBody cfg true true ek et send recv sT eT hv)).recvAttemptedG
        = some 0 ∧
      (gaugesAfter init
        (routeBody cfg true true ek et send recv sT eT hv)).sendUncertainG
        = some 0 ∧
      (gaugesAfter init
        (routeBody cfg true true ek et send recv sT eT hv)).recvSkippedG
        = some 1) := by
  refine ⟨?_, ?_, ?_, ?_⟩
  · cases send <;> cases recv <;> cases ek <;>
      by_cases hp : cfg.uncertainProbeOnTimeout <;>
      simp [routeBody, hp]
  · cases send <;> cases recv <;> cases ek <;>
      by_cases hp : cfg.uncertainProbeOnTimeout <;>
      simp [routeBody, hp]
  · cases send <;> cases recv <;> cases ek <;>
      by_cases hp : cfg.uncertainProbeOnTimeout <;>
      simp [routeBody, hp]
  · intro hsend
    subst hsend
    cases recv <;> cases ek <;>
      refine ⟨?_, ?_, ?_, ?_, ?_⟩ <;>
      simp [routeBody, gaugesAfter, applyEv]

/-- Witness for `gauges_reset_before_send`: a route whose previous cycle
succeeded (all gauges 1) and whose send now hard-fails ends the cycle
with receive-success 0, roundtrip 0, receive-attempted 0,
send-uncertain 0 and receive-skipped 1. -/
theorem gauges_reset_before_send_witness :
    (gaugesAfter
      ⟨some 1, some 1, some 1, some 1, some 1, some 1, some 1, some 1, some 1,
       some 1, 0, 0, 0⟩
      (routeBody ⟨true, 12, 4, 120, 5⟩ true true true 60 .hardFail .notFound
        0 7 9)).recvOkG = some 0 ∧
    (gaugesAfter
      ⟨some 1, some 1, some 1, some 1, some 1, some 1, some 1, some 1, some 1,
       some 1, 0, 0, 0⟩
      (routeBody ⟨true, 12, 4, 120, 5⟩ true true true 60 .hardFail .notFound
        0 7 9)).roundtripG = some 0 ∧
    (gaugesAfter
      ⟨some 1, some 1, some 1, some 1, some 1, some 1, some 1, some 1, some 1,
       some 1, 0, 0, 0⟩
      (routeBody ⟨true, 12, 4, 120, 5⟩ true true true 60 .hardFail .notFound
        0 7 9)).recvAttemptedG = some 0 ∧
    (gaugesAfter
      ⟨some 1, some 1, some 1, some 1, some 1, some 1, some 1, some 1, some 1,
       some 1, 0, 0, 0⟩
      (routeBody ⟨true, 12, 4, 120, 5⟩ true true true 60 .hardFail .notFound
        0 7 9)).sendUncertainG = some 0 ∧
    (gaugesAfter
      ⟨some 1, some 1, some 1, some 1, some 1, some 1, some 1, some 1, some 1,
       some 1, 0, 0, 0⟩
      (routeBody ⟨true, 12, 4, 120, 5⟩ true true true 60 .hardFail .notFound
        0 7 9)).recvSkippedG = some 1 :=
  (gauges_reset_before_send ⟨true, 12, 4, 120, 5⟩ true 60 .hardFail .notFound
    0 7 9 ⟨some 1, some 1, some 1, some 1, some 1, some 1, some 1, some 1,
      some 1, some 1, 0, 0, 0⟩).2.2.2 rfl

/-- Folding the extra-folder loop over an accumulator that already avoids
all clashes appends the extras in order. -/
theorem foldl_addExtras (extras : List String) (acc : List String)
    (h : ∀ f ∈ extras, f ≠ "" ∧ f ∉ acc) (hnd : extras.Nodup) :
    extras.foldl (fun acc f => if f ≠ "" ∧ f ∉ acc then acc ++ [f] else acc) acc
      = acc ++ extras := by
  induction extras generalizing acc with
  | nil => simp
  | cons f rest ih =>
    have hf := h f (List.mem_cons_self f rest)
    rw [List.foldl_cons, if_pos hf]
    rw [List.nodup_cons] at hnd
    rw [ih (acc ++ [f]) ?_ hnd.2]
    · simp
    · intro g hg
      refine ⟨(h g (List.mem_cons_of_mem f hg)).1, ?_⟩
      simp only [List.mem_append, List.mem_singleton]
      rintro (hga | rfl)
      · exact (h g (List.mem_cons_of_mem f hg)).2 hga
      · exact hnd.1 hg

/-- Folding the Gmail-candidate loop over an accumulator disjoint from the
candidates appends them in order. -/
theorem foldl_addGmail (cands : List String) (acc : List String)
    (h : ∀ f ∈ cands, f ∉ acc) (hnd : cands.Nodup) :
    cands.foldl (fun acc f => if f ∉ acc then acc ++ [f] else acc) acc
      = acc ++ cands := by
  induction cands generalizing acc with
  | nil => simp
  | cons f rest ih =>
    rw [List.foldl_cons, if_pos (h f (List.mem_cons_self f rest))]
    rw [List.nodup_cons] at hnd
    rw [ih (acc ++ [f]) ?_ hnd.2]
    · simp
    · intro g hg
      simp only [List.mem_append, List.mem_singleton]
      rintro (hga | rfl)
      · exact h g (List.mem_cons_of_mem f hg) hga
      · exact hnd.1 hg

/-- **C6.** For a destination account configuration whose extra folders
are non-empty, pairwise distinct, distinct from the primary folder and
from the provider candidates, the poller's folder list is exactly: the
configured primary folder first, then each explicitly configured extra
folder in order, then — only when the host matches the Gmail heuristic —
the fixed list of Gmail alternate folders.  The list is a pure function
of `(folder, extra_folders, host)`, hence identical on every poll for the
same configuration. -/
theorem folder_list_deterministic_order
    (baseFolder : String) (extras : List String) (host : String)
    (hne : ∀ f ∈ extras, f ≠ "")
    (hnd : extras.Nodup)
    (hbase : baseFolder ∉ extras)
    (hgm : ∀ f ∈ gmailCandidates, f ≠ baseFolder ∧ f ∉ extras) :
    buildFolderList baseFolder (.many extras) host =
      baseFolder :: extras ++
        (if isGmailHost host then gmailCandidates else []) := by
  unfold buildFolderList
  rw [normalizeExtras]
  have h1 : extras.foldl
      (fun acc f => if f ≠ "" ∧ f ∉ acc then acc ++ [f] else acc) [baseFolder]
      = [baseFolder] ++ extras := by
    apply foldl_addExtras extras [baseFolder] ?_ hnd
    intro f hf
    refine ⟨hne f hf, ?_⟩
    simp only [List.mem_singleton]
    rintro rfl
    exact hbase hf
  rw [h1]
  by_cases hg : isGmailHost host
  · rw [if_pos hg, if_pos hg]
    rw [foldl_addGmail gmailCandidates ([baseFolder] ++ extras) ?_ (by decide)]
    · simp
    · intro f hf
      simp only [List.mem_append, List.mem_singleton]
      rintro (rfl | hfe)
      · exact (hgm f hf).1 rfl
      · exact (hgm f hf).2 hfe
  · rw [if_neg hg, if_neg hg]
    simp

/-- Witness for `folder_list_deterministic_order`: primary folder INBOX,
one extra folder, a Gmail host. -/
theorem folder_list_deterministic_order_witness :
    buildFolderList "INBOX" (.many ["Archive"]) "imap.gmail.com" =
      "INBOX" :: ["Archive"] ++
        (if isGmailHost "imap.gmail.com" then gmailCandidates else []) :=
  folder_list_deterministic_order "INBOX" ["Archive"] "imap.gmail.com"
    (by decide) (by decide) (by decide) (by decide)

/-- **C7** (supporting evaluation for the code bug).  In the modular
poller `imap_client.imap_wait_receive`, every labelled gauge write uses
the literal placeholder `"?"` as the `from` label — not the route's
actual source account key (`"acct-a"` for this route) — both when the
token is found and when the poll times out. -/
theorem imap_writes_use_placeholder_from_label :
    (imapWaitReceiveWrites "r1" "acct-b" (.found 1) 100 5).map
      MetricWrite.fromKey = ["?", "?", "?", "?"] ∧
    (imapWaitReceiveWrites "r1" "acct-b" .timedOut 100 5).map
      MetricWrite.fromKey = ["?", "?"] ∧
    "?" ≠ "acct-a" ∧
    (imapWaitReceiveWrites "r1" "acct-b" (.found 1) 100 5).head? =
      some ⟨"receive_attempted", "r1", "?", "acct-b", 1⟩ :=
  ⟨rfl, rfl, by decide, rfl⟩

theorem lookupKey_setKey_self (d : YDict) (k : String) (v : YVal) :
    lookupKey (setKey d k v) k = some v := by
  induction d with
  | nil => simp [setKey, lookupKey]
  | cons hd tl ih =>
    by_cases h : hd.1 = k
    · simp [setKey, lookupKey, h]
    · simp [setKey, lookupKey, h, ih]

theorem lookupKey_setKey_ne (d : YDict) (k k' : String) (v : YVal)
    (h : k' ≠ k) : lookupKey (setKey d k' v) k = lookupKey d k := by
  induction d with
  | nil => simp [setKey, lookupKey, h]
  | cons hd tl ih =>
    by_cases hh : hd.1 = k'
    · simp [setKey, lookupKey, hh, h, Ne.symm h]
    · by_cases hk : hd.1 = k <;> simp [setKey, lookupKey, hh, hk, ih, Ne.symm h]

/-- `loadStep` is exactly: write `mergeVal` of the current binding and
the document value at the processed key. -/
theorem loadStep_eq (data : YDict) (kv : String × YVal) :
    loadStep data kv = setKey data kv.1 (mergeVal (lookupKey data kv.1) kv.2) := by
  rcases kv with ⟨k0, v0⟩
  rcases hd : lookupKey data k0 with _ | w
  · cases v0 <;> simp [loadStep, mergeVal, hd]
  · cases v0 <;> cases w <;> simp [loadStep, mergeVal, hd]

/-- Processing bindings that do not mention `k` leaves `k`'s binding. -/
theorem lookupKey_loadMerge_notMem (data : YDict) (loaded : YDict)
    (k : String) (h : k ∉ keysOf loaded) :
    lookupKey (loadMerge data loaded) k = lookupKey data k := by
  induction loaded generalizing data with
  | nil => rfl
  | cons kv rest ih =>
    simp only [keysOf, List.map_cons, List.mem_cons, not_or] at h
    rw [loadMerge, List.foldl_cons]
    rw [show List.foldl loadStep (loadStep data kv) rest
          = loadMerge (loadStep data kv) rest from rfl]
    rw [ih (loadStep data kv) (by simpa [keysOf] using h.2)]
    rw [loadStep_eq]
    exact lookupKey_setKey_ne data k kv.1 _ (fun he => h.1 he.symm)

/-- Folding `setKey` over bindings that do not mention `k` leaves `k`'s
binding. -/
theorem lookupKey_mergeDicts_notMem (a b : YDict) (k : String)
    (h : k ∉ keysOf b) : lookupKey (mergeDicts a b) k = lookupKey a k := by
  induction b generalizing a with
  | nil => rfl
  | cons kv rest ih =>
    simp only [keysOf, List.map_cons, List.mem_cons, not_or] at h
    rw [mergeDicts, List.foldl_cons]
    rw [show List.foldl (fun acc kv => setKey acc kv.1 kv.2)
          (setKey a kv.1 kv.2) rest = mergeDicts (setKey a kv.1 kv.2) rest
        from rfl]
    rw [ih (setKey a kv.1 kv.2) (by simpa [keysOf] using h.2)]
    exact lookupKey_setKey_ne a k kv.1 kv.2 (fun he => h.1 he.symm)

/-- `{**a, **b}` with unique keys in `b`: `b`'s bindings win per key,
`a`'s other bindings are kept. -/
theorem lookupKey_mergeDicts (a b : YDict) (k : String)
    (hnd : (keysOf b).Nodup) :
    lookupKey (mergeDicts a b) k =
      match lookupKey b k with
      | some v => some v
      | none => lookupKey a k := by
  induction b generalizing a with
  | nil => rfl
  | cons kv rest ih =>
    rcases kv with ⟨k0, v0⟩
    simp only [keysOf, List.map_cons, List.nodup_cons] at hnd
    rw [mergeDicts, List.foldl_cons]
    rw [show List.foldl (fun acc kv => setKey acc kv.1 kv.2)
          (setKey a k0 v0) rest = mergeDicts (setKey a k0 v0) rest from rfl]
    by_cases hk : k0 = k
    · subst hk
      rw [lookupKey_mergeDicts_notMem (setKey a k0 v0) rest k0 hnd.1,
        lookupKey_setKey_self]
      simp [lookupKey]
    · rw [ih (setKey a k0 v0) hnd.2]
      rw [lookupKey_setKey_ne a k k0 v0 hk]
      simp [lookupKey, hk]

/-- Per-key characterization of `ExporterConfig.load`'s merge over a
document with unique top-level keys. -/
theorem lookupKey_loadMerge (defaults loaded : YDict) (k : String)
    (hnd : (keysOf loaded).Nodup) :
    lookupKey (loadMerge defaults loaded) k =
      match lookupKey loaded k with
      | none => lookupKey defaults k
      | some v => some (mergeVal (lookupKey defaults k) v) := by
  induction loaded generalizing defaults with
  | nil => rfl
  | cons kv rest ih =>
    rcases kv with ⟨k0, v0⟩
    simp only [keysOf, List.map_cons, List.nodup_cons] at hnd
    rw [loadMerge, List.foldl_cons,
      show List.foldl loadStep (loadStep defaults (k0, v0)) rest
        = loadMerge (loadStep defaults (k0, v0)) rest from rfl]
    by_cases hk : k0 = k
    · subst hk
      rw [lookupKey_loadMerge_notMem _ rest k0 (by simpa [keysOf] using hnd.1),
        loadStep_eq, lookupKey_setKey_self]
      simp [lookupKey]
    · rw [ih (loadStep defaults (k0, v0)) hnd.2, loadStep_eq,
        lookupKey_setKey_ne defaults k k0 _ hk]
      simp [lookupKey, hk]

/-- **C8.** For every loaded configuration document (with unique
top-level keys, as YAML mappings have), `ExporterConfig.load` produces a
dict in which a top-level key not mentioned by the document keeps its
default, a top-level key absent from the defaults is passed through
unchanged, and a top-level key whose value is a dict both in the document
and in the defaults is shallow-merged over the defaults: per key the
document's value wins and default keys the document does not mention are
kept. -/
theorem config_merge_spec (defaults loaded : YDict)
    (hnd : (keysOf loaded).Nodup) :
    (∀ k, lookupKey loaded k = none →
      lookupKey (loadMerge defaults loaded) k = lookupKey defaults k) ∧
    (∀ k v, lookupKey defaults k = none → lookupKey loaded k = some v →
      lookupKey (loadMerge defaults loaded) k = some v) ∧
    (∀ k ve de, lookupKey loaded k = some (.dict ve) →
      lookupKey defaults k = some (.dict de) →
      lookupKey (loadMerge defaults loaded) k =
        some (.dict (mergeDicts de ve)) ∧
      (∀ k', (keysOf ve).Nodup →
        lookupKey (mergeDicts de ve) k' =
          match lookupKey ve k' with
          | some w => some w
          | none => lookupKey de k')) := by
  refine ⟨?_, ?_, ?_⟩
  · intro k hk
    rw [lookupKey_loadMerge defaults loaded k hnd, hk]
  · intro k v hd hl
    rw [lookupKey_loadMerge defaults loaded k hnd, hl, hd]
    cases v <;> rfl
  · intro k ve de hl hd
    refine ⟨?_, ?_⟩
    · rw [lookupKey_loadMerge defaults loaded k hnd, hl, hd]
      rfl
    · intro k' hven
      exact lookupKey_mergeDicts de ve k' hven

/-- Witness for `config_merge_spec` on the real `DEFAULTS` and
`loadedExample`: the unknown key `custom` passes through, `exporter` is
shallow-merged (the document's `listen_port` wins, the default
`subject_prefix` is kept, the document-only `extra_knob` is added). -/
theorem config_merge_spec_witness :
    lookupKey (loadMerge DEFAULTS loadedExample) "custom" = some (.str "x") ∧
    lookupKey (loadMerge DEFAULTS loadedExample) "tests" = some (.list []) ∧
    lookupKey (loadMerge DEFAULTS loadedExample) "exporter" =
      some (.dict (mergeDicts exporterDefaults
        [("listen_port", .int 1234), ("extra_knob", .str "on")])) ∧
    lookupKey (mergeDicts exporterDefaults
      [("listen_port", .int 1234), ("extra_knob", .str "on")]) "listen_port"
      = some (.int 1234) ∧
    lookupKey (mergeDicts exporterDefaults
      [("listen_port", .int 1234), ("extra_knob", .str "on")]) "subject_prefix"
      = some (.str "[MAIL-E2E]") ∧
    lookupKey (mergeDicts exporterDefaults
      [("listen_port", .int 1234), ("extra_knob", .str "on")]) "extra_knob"
      = some (.str "on") := by
  have h := config_merge_spec DEFAULTS loadedExample (by decide)
  have hm := h.2.2 "exporter"
    [("listen_port", .int 1234), ("extra_knob", .str "on")]
    exporterDefaults rfl rfl
  refine ⟨h.2.1 "custom" (.str "x") rfl rfl, h.1 "tests" rfl, hm.1, ?_, ?_, ?_⟩
  · rw [hm.2 "listen_port" (by decide)]; rfl
  · rw [hm.2 "subject_prefix" (by decide)]; rfl
  · rw [hm.2 "extra_knob" (by decide)]; rfl

end MailE2E
